import Mathlib

/-!
Verification of the AdFlow ad-selection worker
(`project1/student-starter/worker/lambda_handler.py`).

The repository ships the worker as a starter skeleton: the four core
functions (`compute_score`, `select_winner`, `process_opportunity`,
`lambda_handler`) are present in the source and each body is a single
`raise NotImplementedError(...)`, while the scoring tables
(`RELEVANCE_MAP`, `TIME_WINDOWS`, `DEVICE_BONUS`), the docstring
contracts and the test suite are present.  We embed the data model the
docstrings describe, the scoring tables, and the four stub bodies
exactly as they stand, and record that every core operation raises on
every input — including on each of the concrete inputs for which the
docstrings and the test suite prescribe a definite result.

Currency amounts and scores are modelled as exact rationals (`ℚ`).
-/

/- ----------------------------------------------------------------- -/
/- Data model (from the inbound message schema and result schema)    -/
/- ----------------------------------------------------------------- -/

/-- One advertiser's bid on an opportunity: keys `advertiser_id`,
`bid_amount`, `category` of the bid dict. -/
structure Bid where
  advertiser_id : String
  bid_amount : ℚ
  category : String
deriving DecidableEq, Repr

/-- One ad-auction opportunity.  The `timestamp` field of the message is
modelled by the hour-of-day (0–23) it parses to, which is the only part
of it the scorer's contract consumes; an unparseable timestamp is
modelled at the record level (see `Body.badTimestamp`). -/
structure Opportunity where
  opportunity_id : String
  content_category : String
  device_type : String
  hour : Nat
  region : String
  bids : List Bid
deriving DecidableEq, Repr

/-- The winner-selection result dict of `select_winner`'s docstring:
`winning_advertiser_id`, `winning_bid_amount`, `winning_score`,
`score_margin`. -/
structure WinnerResult where
  winning_advertiser_id : String
  winning_bid_amount : ℚ
  winning_score : ℚ
  score_margin : ℚ
deriving DecidableEq, Repr

/-- The result record schema of `process_opportunity`'s docstring. -/
structure AuctionResult where
  opportunity_id : String
  content_category : String
  winning_advertiser_id : String
  winning_bid_amount : ℚ
  winning_score : ℚ
  score_margin : ℚ
  processed_at : String
deriving DecidableEq, Repr

/-- The decoded shape of one SQS record body: malformed JSON or missing
fields; well-formed except for an unparseable timestamp (a domain error,
fatal to the item); or a well-formed opportunity. -/
inductive Body where
  | malformed : Body
  | badTimestamp : Body
  | ok : Opportunity → Body
deriving DecidableEq, Repr

/-- One record of the SQS event's `Records` list: `messageId` and body. -/
structure SqsRecord where
  messageId : String
  body : Body
deriving DecidableEq, Repr

/-- The observable outcome one batch invocation is documented to
produce: the partial batch failure list (`batchItemFailures`
identifiers, in batch order) and the result records landing in each
downstream sink (results queue and DynamoDB table). -/
structure BatchOutcome where
  batchItemFailures : List String
  queueWrites : List AuctionResult
  storeWrites : List AuctionResult
deriving DecidableEq, Repr

/- ----------------------------------------------------------------- -/
/- Scoring constants, embedded verbatim from the source              -/
/- ----------------------------------------------------------------- -/

/-- `RELEVANCE_MAP` from the source: `(content_category, advertiser
category) -> multiplier`; the source comment says any combination not
listed receives 1.0. -/
def RELEVANCE_MAP : List ((String × String) × ℚ) :=
  [ (("sports", "sportswear"), 14/10),
    (("sports", "energy_drink"), 13/10),
    (("finance", "fintech"), 15/10),
    (("finance", "insurance"), 13/10),
    (("entertainment", "streaming"), 14/10),
    (("entertainment", "gaming"), 13/10),
    (("lifestyle", "beauty"), 13/10),
    (("lifestyle", "travel"), 12/10) ]

/-- `TIME_WINDOWS` from the source:
`(start_hour_inclusive, end_hour_exclusive, bonus)`. -/
def TIME_WINDOWS : List (Nat × Nat × ℚ) :=
  [ (6, 9, 12/10),
    (12, 14, 115/100),
    (19, 23, 125/100) ]

/-- `DEVICE_BONUS` from the source: device type → bonus. -/
def DEVICE_BONUS : List (String × ℚ) :=
  [ ("mobile", 11/10),
    ("desktop", 1) ]

/- ----------------------------------------------------------------- -/
/- The source as it stands: the four bodies are unimplemented stubs  -/
/- ----------------------------------------------------------------- -/

/-- A raised Python exception, as the starter stubs produce. -/
inductive PyError where
  | notImplementedError : String → PyError
deriving DecidableEq, Repr

/-- From the source (line 117): the whole body of `compute_score` is
`raise NotImplementedError("Task 1: Implement compute_score")`. -/
def compute_score (bid : Bid) (opportunity : Opportunity) : Except PyError ℚ :=
  Except.error (PyError.notImplementedError ("Task 1: Implement compute_score"))

/-- From the source (line 145): the whole body of `select_winner` is
`raise NotImplementedError("Task 2: Implement select_winner")`. -/
def select_winner (opportunity : Opportunity) : Except PyError (Option WinnerResult) :=
  Except.error (PyError.notImplementedError ("Task 2: Implement select_winner"))

/-- From the source (line 186): the whole body of `process_opportunity`
is `raise NotImplementedError("Task 3: Implement process_opportunity")`. -/
def process_opportunity (opportunity : Opportunity) : Except PyError (Option AuctionResult) :=
  Except.error (PyError.notImplementedError ("Task 3: Implement process_opportunity"))

/-- From the source (line 227): the whole body of `lambda_handler` is
`raise NotImplementedError("Task 4: Implement lambda_handler")`. -/
def lambda_handler (event : List SqsRecord) (ctx : Unit) : Except PyError BatchOutcome :=
  Except.error (PyError.notImplementedError ("Task 4: Implement lambda_handler"))

/- ----------------------------------------------------------------- -/
/- Concrete inputs from the claims and the repository's test suite   -/
/- ----------------------------------------------------------------- -/

/-- The sample bid of the test suite: `adv_001`, $3.50, sportswear. -/
def c1Bid : Bid := ⟨"adv_001", 7/2, "sportswear"⟩

/-- The sample opportunity context of the test suite: sports content on
mobile at hour 20 (evening peak). -/
def c1Opp : Opportunity :=
  ⟨"test-001", "sports", "mobile", 20, "southeast",
   [⟨"adv_001", 7/2, "sportswear"⟩, ⟨"adv_002", 21/5, "fast_food"⟩,
    ⟨"adv_003", 57/20, "sportswear"⟩]⟩

/-- A batch whose first record is malformed and second is well-formed:
the scenario the failure-isolation contract is about. -/
def c2Records : List SqsRecord :=
  [⟨"msg-bad", Body.malformed⟩,
   ⟨"msg-good", Body.ok ⟨"opp-9", "news", "desktop", 0, "r", [⟨"a", 2, "ad"⟩]⟩⟩]

/-- A batch of two well-formed one-bid opportunities, matching the
shape of the test suite's end-to-end batch test. -/
def c3Records : List SqsRecord :=
  [⟨"msg-001", Body.ok ⟨"opp-1", "news", "desktop", 0, "r", [⟨"a", 2, "ad"⟩]⟩⟩,
   ⟨"msg-002", Body.ok ⟨"opp-2", "news", "desktop", 0, "r", [⟨"b", 3, "ad"⟩]⟩⟩]

/-- A three-bid sports opportunity (the test fixture). -/
def c4Opp : Opportunity :=
  ⟨"test-004", "sports", "mobile", 20, "southeast",
   [⟨"adv_001", 7/2, "sportswear"⟩, ⟨"adv_002", 21/5, "fast_food"⟩,
    ⟨"adv_003", 57/20, "sportswear"⟩]⟩

/-- An opportunity with an empty bid list. -/
def c5Opp : Opportunity := ⟨"test-005", "sports", "mobile", 20, "southeast", []⟩

/-- An opportunity whose only bids are zero or negative. -/
def c6Opp : Opportunity :=
  ⟨"test-006", "sports", "mobile", 20, "southeast",
   [⟨"adv_001", 0, "sportswear"⟩, ⟨"adv_002", -1, "fast_food"⟩]⟩

/-- An opportunity with two equally scored top bids (a tie). -/
def c7Opp : Opportunity :=
  ⟨"test-007", "news", "desktop", 15, "r",
   [⟨"first", 2, "x"⟩, ⟨"second", 2, "y"⟩, ⟨"third", 1, "z"⟩]⟩

/-- A bid whose category pairs with no entry of `RELEVANCE_MAP`. -/
def c8Bid : Bid := ⟨"x", 5, "fast_food"⟩

/-- An opportunity whose content category, hour and device type all miss
their tables (no relevance entry, no time window, no device entry). -/
def c8Opp : Opportunity := ⟨"test-008", "news", "tablet", 15, "r", [c8Bid]⟩

/-- A two-bid sports opportunity where the lower raw amount has the
better relevance multiplier. -/
def c9Opp : Opportunity :=
  ⟨"test-009", "sports", "mobile", 20, "southeast",
   [⟨"adv_001", 7/2, "sportswear"⟩, ⟨"adv_002", 21/5, "fast_food"⟩]⟩

/- ----------------------------------------------------------------- -/
/- Claim theorems: the code at each claim's deciding input           -/
/- ----------------------------------------------------------------- -/

/-- Claim C1 (code bug): at the test fixture's bid and opportunity —
amount 3.50, sports/sportswear, hour 20, mobile, for which the claim,
the docstring and the test prescribe the product score 6.7375 — the
shipped `compute_score` raises `NotImplementedError` and returns no
score at all. -/
theorem C1_compute_score_raises_at_fixture :
    compute_score c1Bid c1Opp
      = Except.error (PyError.notImplementedError ("Task 1: Implement compute_score"))
    ∧ ∀ v : ℚ, compute_score c1Bid c1Opp ≠ Except.ok v := by
  refine ⟨rfl, ?_⟩
  intro v h
  simp [compute_score] at h

/-- Claim C2 (code bug): on a batch holding one malformed and one
well-formed record — where the claim and the docstring requirement
(`do NOT let it crash the entire batch`) demand that the failure be
converted into a failed-item entry while the sibling is processed — the
shipped `lambda_handler` raises `NotImplementedError`, aborting the
whole batch, and returns no outcome. -/
theorem C2_lambda_handler_raises_on_batch :
    lambda_handler c2Records ()
      = Except.error (PyError.notImplementedError ("Task 4: Implement lambda_handler"))
    ∧ ∀ v : BatchOutcome, lambda_handler c2Records () ≠ Except.ok v := by
  refine ⟨rfl, ?_⟩
  intro v h
  simp [lambda_handler] at h

/-- Claim C3 (code bug): on a batch of two well-formed one-bid
opportunities — for which the claim and the end-to-end test prescribe an
empty failure list and two keyed records in each sink — the shipped
`lambda_handler` raises `NotImplementedError` and produces no
`BatchOutcome` and no sink writes. -/
theorem C3_lambda_handler_raises_on_well_formed_batch :
    lambda_handler c3Records ()
      = Except.error (PyError.notImplementedError ("Task 4: Implement lambda_handler"))
    ∧ ∀ v : BatchOutcome, lambda_handler c3Records () ≠ Except.ok v := by
  refine ⟨rfl, ?_⟩
  intro v h
  simp [lambda_handler] at h

/-- Claim C4 (code bug): on the three-bid fixture opportunity — for
which the claim prescribes a winner with `score_margin` equal to the
winning score minus the runner-up score and ≥ 0 — the shipped
`select_winner` raises `NotImplementedError` and returns no result dict
with a `score_margin` at all. -/
theorem C4_select_winner_raises_on_fixture :
    select_winner c4Opp
      = Except.error (PyError.notImplementedError ("Task 2: Implement select_winner"))
    ∧ ∀ v : Option WinnerResult, select_winner c4Opp ≠ Except.ok v := by
  refine ⟨rfl, ?_⟩
  intro v h
  simp [select_winner] at h

/-- Claim C5 (code bug): on the empty-bid-list opportunity — for which
the claim, the docstring (`Returns None if there are no valid bids`) and
the test prescribe an absent result with no error — both shipped
functions raise `NotImplementedError` instead of returning `None`. -/
theorem C5_select_winner_raises_on_empty_bids :
    select_winner c5Opp
      = Except.error (PyError.notImplementedError ("Task 2: Implement select_winner"))
    ∧ process_opportunity c5Opp
      = Except.error (PyError.notImplementedError ("Task 3: Implement process_opportunity"))
    ∧ (∀ v : Option WinnerResult, select_winner c5Opp ≠ Except.ok v)
    ∧ (∀ v : Option AuctionResult, process_opportunity c5Opp ≠ Except.ok v) := by
  refine ⟨rfl, rfl, ?_, ?_⟩ <;> intro v h <;>
    simp [select_winner, process_opportunity] at h

/-- Claim C6 (code bug): on the opportunity whose only bids have amounts
0 and −1 — for which the claim prescribes that both bids be excluded and
the result be absent — the shipped `select_winner` raises
`NotImplementedError` and performs no exclusion and no selection. -/
theorem C6_select_winner_raises_on_nonpositive :
    select_winner c6Opp
      = Except.error (PyError.notImplementedError ("Task 2: Implement select_winner"))
    ∧ ∀ v : Option WinnerResult, select_winner c6Opp ≠ Except.ok v := by
  refine ⟨rfl, ?_⟩
  intro v h
  simp [select_winner] at h

/-- Claim C7 (code bug): on the opportunity whose first two bids tie for
the top score — where the claim prescribes that the earliest-listed bid
win deterministically — the shipped `select_winner` raises
`NotImplementedError` and resolves no tie. -/
theorem C7_select_winner_raises_on_tie :
    select_winner c7Opp
      = Except.error (PyError.notImplementedError ("Task 2: Implement select_winner"))
    ∧ ∀ v : Option WinnerResult, select_winner c7Opp ≠ Except.ok v := by
  refine ⟨rfl, ?_⟩
  intro v h
  simp [select_winner] at h

/-- Claim C8 (code bug): on a bid and opportunity whose category pair,
hour and device type are all absent from `RELEVANCE_MAP`, `TIME_WINDOWS`
and `DEVICE_BONUS` — where the claim and the source's own table comments
prescribe default factors of 1.0 — the shipped `compute_score` raises
`NotImplementedError` and applies no factor at all. -/
theorem C8_compute_score_raises_on_default_keys :
    compute_score c8Bid c8Opp
      = Except.error (PyError.notImplementedError ("Task 1: Implement compute_score"))
    ∧ (∀ e ∈ RELEVANCE_MAP, e.1 ≠ (c8Opp.content_category, c8Bid.category))
    ∧ (∀ w ∈ TIME_WINDOWS, ¬(w.1 ≤ c8Opp.hour ∧ c8Opp.hour < w.2.1))
    ∧ (∀ e ∈ DEVICE_BONUS, e.1 ≠ c8Opp.device_type)
    ∧ ∀ v : ℚ, compute_score c8Bid c8Opp ≠ Except.ok v := by
  refine ⟨rfl, by decide, by decide, by decide, ?_⟩
  intro v h
  simp [compute_score] at h

/-- Claim C9 (code bug): on the sports opportunity with the $3.50
sportswear and $4.20 fast-food bids — where the claim and the test
prescribe that the lower-amount sportswear bid win on relevance-adjusted
score — the shipped `select_winner` raises `NotImplementedError` and
selects no winner. -/
theorem C9_select_winner_raises_on_relevance_pair :
    select_winner c9Opp
      = Except.error (PyError.notImplementedError ("Task 2: Implement select_winner"))
    ∧ ∀ v : Option WinnerResult, select_winner c9Opp ≠ Except.ok v := by
  refine ⟨rfl, ?_⟩
  intro v h
  simp [select_winner] at h

/-- Claim C10: the four core operations of the source are unimplemented
stubs: on every input each raises `NotImplementedError` with its task
message and never returns a value. -/
theorem C10_core_stubs_raise (bid : Bid) (opp : Opportunity)
    (event : List SqsRecord) (ctx : Unit) :
    compute_score bid opp
        = Except.error (PyError.notImplementedError ("Task 1: Implement compute_score"))
    ∧ select_winner opp
        = Except.error (PyError.notImplementedError ("Task 2: Implement select_winner"))
    ∧ process_opportunity opp
        = Except.error (PyError.notImplementedError ("Task 3: Implement process_opportunity"))
    ∧ lambda_handler event ctx
        = Except.error (PyError.notImplementedError ("Task 4: Implement lambda_handler"))
    ∧ (∀ v, compute_score bid opp ≠ Except.ok v)
    ∧ (∀ v, select_winner opp ≠ Except.ok v)
    ∧ (∀ v, process_opportunity opp ≠ Except.ok v)
    ∧ (∀ v, lambda_handler event ctx ≠ Except.ok v) := by
  refine ⟨rfl, rfl, rfl, rfl, ?_, ?_, ?_, ?_⟩ <;> intro v h <;>
    simp [compute_score, select_winner, process_opportunity, lambda_handler] at h
